import Mathlib

/-!
Verification of the dual-state particle/ornament transition engine of the
3D Christmas-tree scene (React / three.js).  The definitions below are a
shallow embedding of the source files:

* `TreeParticles` (foliage cloud): host-side progress smoothing and the
  GLSL `easeOutCubic`, plus the geometry generation loop.
* `Ornaments` / `usePhysicsOrnaments`: entity generation and the per-frame
  `updatePhysics` spring/damping step.
* `Photos` / `PhotoItem`: featured-photo camera placement, empty-list guard,
  featured-index rolling.
* `App`: `toggleState`, `handleNextPhoto` / `handlePrevPhoto`,
  `handlePhotoUpload`.

Host-side scalar arithmetic that only adds, subtracts and multiplies is
embedded over `ℚ` so that concrete frames evaluate by `decide`; geometry
that uses `sin`, `cos`, `acos` and cube roots is embedded over `ℝ`.
-/

namespace XmasScene

/-! ## Configuration constants (src/types.ts, CONFIG) -/

/-- Constant `CONFIG.treeHeight`. -/
def treeHeight : ℝ := 14

/-- Constant `CONFIG.treeRadius`. -/
def treeRadius : ℝ := 5

/-- Constant `CONFIG.particleCount`. -/
def particleCount : ℕ := 8000

/-! ## Scene mode (src/types.ts, `TreeState`) -/

/-- The two-value scene mode enumeration. -/
inductive TreeState where
  | CHAOS
  | FORMED
deriving DecidableEq, Repr

/-- Function `toggleState` from App: `prev === CHAOS ? FORMED : CHAOS`. -/
def toggleState (prev : TreeState) : TreeState :=
  if prev = TreeState.CHAOS then TreeState.FORMED else TreeState.CHAOS

/-- Derived flag `isFormed = treeState === TreeState.FORMED` (Experience.tsx). -/
def isFormed (s : TreeState) : Bool :=
  s = TreeState.FORMED

/-! ## Host-side progress scalar (TreeParticles useFrame) -/

/-- Helper `THREE.MathUtils.lerp (x, y, t) = (1 - t) * x + t * y` (no clamping). -/
def lerp (x y t : ℚ) : ℚ := (1 - t) * x + t * y

/-- One frame of the foliage progress smoothing:
`uProgress = lerp(uProgress, isFormed ? 1 : 0, delta * 1.5)`. -/
def progressStep (formed : Bool) (p delta : ℚ) : ℚ :=
  lerp p (if formed then 1 else 0) (delta * (3/2))

/-- A whole frame sequence of progress updates under a fixed mode. -/
def progressRun (formed : Bool) (p : ℚ) (deltas : List ℚ) : ℚ :=
  deltas.foldl (fun q d => progressStep formed q d) p

/-! ## Device-side easing (FoliageMaterial vertex shader) -/

/-- Shader easing `easeOutCubic (x) = 1.0 - pow(1.0 - x, 3.0)`. -/
def easeOutCubic (x : ℚ) : ℚ := 1 - (1 - x) ^ 3

/-! ## 3D vectors (THREE.Vector3, over ℝ) -/

/-- A three.js `Vector3`. -/
structure Vec3 where
  x : ℝ
  y : ℝ
  z : ℝ

/-- Vector addition, `Vector3.add`. -/
noncomputable def Vec3.add (a b : Vec3) : Vec3 := ⟨a.x + b.x, a.y + b.y, a.z + b.z⟩

/-- Vector subtraction, `Vector3.sub`. -/
noncomputable def Vec3.sub (a b : Vec3) : Vec3 := ⟨a.x - b.x, a.y - b.y, a.z - b.z⟩

/-- Scalar multiple, `Vector3.multiplyScalar`. -/
noncomputable def Vec3.scale (a : Vec3) (s : ℝ) : Vec3 := ⟨a.x * s, a.y * s, a.z * s⟩

/-! ## Ornament entity and per-frame physics (Ornaments, part of `useFrame`) -/

/-- The mutable per-entity state touched by `updatePhysics` (the rotation
fields are carried but not needed by the verified claims). -/
structure OrnamentItem where
  chaosPos : Vec3
  targetPos : Vec3
  currentPos : Vec3
  velocity : Vec3
  mass : ℝ
  phase : ℝ

/-- The destination an entity is pulled toward:
`dest = isFormed ? item.targetPos : item.chaosPos`. -/
noncomputable def destOf (formed : Bool) (item : OrnamentItem) : Vec3 :=
  if formed then item.targetPos else item.chaosPos

/-- The chaos-mode noise velocity added inside `updatePhysics`:
`(sin(time*0.5+phase), cos(time*0.3+phase*2), sin(time*0.7+phase*0.5))`
each scaled by `noiseStrength`. -/
noncomputable def noiseVec (time phase noiseStrength : ℝ) : Vec3 :=
  ⟨Real.sin (time * 0.5 + phase) * noiseStrength,
   Real.cos (time * 0.3 + phase * 2) * noiseStrength,
   Real.sin (time * 0.7 + phase * 0.5) * noiseStrength⟩

/-- One ornament, one frame of `updatePhysics` (Ornaments `useFrame`):
spring pull, chaos-only noise, damping, then position integration with
`dt = Math.min(delta, 0.1)` and the `dt * 60` frame-rate normalisation. -/
noncomputable def updatePhysics (formed : Bool) (time delta : ℝ)
    (stiffness damping noiseStrength : ℝ) (item : OrnamentItem) : OrnamentItem :=
  let dt := min delta 0.1
  let dest := destOf formed item
  let v1 := item.velocity.add ((dest.sub item.currentPos).scale (stiffness / item.mass))
  let v2 := if formed then v1 else v1.add (noiseVec time item.phase noiseStrength)
  let v3 := v2.scale damping
  let pos := item.currentPos.add (v3.scale (dt * 60))
  { item with velocity := v3, currentPos := pos }

/-- Step 1 of `updatePhysics` in isolation: accumulate the spring pull
`(dest - currentPos) * (stiffness / mass)` into the velocity. -/
noncomputable def springPullStep (formed : Bool) (stiffness : ℝ) (item : OrnamentItem) : OrnamentItem :=
  { item with velocity :=
      item.velocity.add (((destOf formed item).sub item.currentPos).scale (stiffness / item.mass)) }

/-- Step 2 of `updatePhysics` in isolation: in CHAOS (and only then) add the
sine/cosine noise velocity. -/
noncomputable def chaosNoiseStep (formed : Bool) (time noiseStrength : ℝ) (item : OrnamentItem) : OrnamentItem :=
  if formed then item
  else { item with velocity := item.velocity.add (noiseVec time item.phase noiseStrength) }

/-- Step 3 of `updatePhysics` in isolation: multiply the velocity by the
damping constant. -/
noncomputable def dampingStep (damping : ℝ) (item : OrnamentItem) : OrnamentItem :=
  { item with velocity := item.velocity.scale damping }

/-- Step 4 of `updatePhysics` in isolation: integrate the position with the
clamped time step `dt = min delta 0.1`, scaled by 60. -/
noncomputable def integrateStep (delta : ℝ) (item : OrnamentItem) : OrnamentItem :=
  { item with currentPos := item.currentPos.add (item.velocity.scale (min delta 0.1 * 60)) }

/-- Per-archetype physics constants, as passed at the five `updatePhysics`
call sites. -/
structure ArchetypeParams where
  scaleBase : ℝ
  stiffness : ℝ
  damping : ℝ
  noiseStrength : ℝ

/-- Call site `updatePhysics(balls, ..., 1.0, 0.05, 0.92, 0.02)` -/
noncomputable def ballParams : ArchetypeParams := ⟨1.0, 0.05, 0.92, 0.02⟩

/-- Call site `updatePhysics(boxes, ..., 0.6, 0.04, 0.90, 0.03)` -/
noncomputable def boxParams : ArchetypeParams := ⟨0.6, 0.04, 0.90, 0.03⟩

/-- Call site `updatePhysics(diamonds, ..., 0.5, 0.06, 0.94, 0.04)` -/
noncomputable def diamondParams : ArchetypeParams := ⟨0.5, 0.06, 0.94, 0.04⟩

/-- Call site `updatePhysics(rings, ..., 0.4, 0.05, 0.93, 0.02)` -/
noncomputable def ringParams : ArchetypeParams := ⟨0.4, 0.05, 0.93, 0.02⟩

/-- Call site `updatePhysics(icicles, ..., 0.5, 0.05, 0.93, 0.02, true)` -/
noncomputable def icicleParams : ArchetypeParams := ⟨0.5, 0.05, 0.93, 0.02⟩

/-! ## Entity generation (TreeParticles geometry, usePhysicsOrnaments)

Each `Math.random()` call is passed in as an explicit draw in `[0,1)`.
`Math.cbrt u` for `u ∈ [0,1)` is embedded as the real power `u ^ (1/3)`. -/

/-- Cube root `Math.cbrt` on the nonnegative draws used by the generators. -/
noncomputable def cbrt (u : ℝ) : ℝ := u ^ ((1 : ℝ) / 3)

/-- Foliage chaos position (TreeParticles, draws `u θr φr`):
`r = cbrt(random()) * 15`, `theta = random()*2π`, `phi = acos(2*random()-1)`,
sphere point from `(r, theta, phi)` with the centre lifted by `+7` in `y`. -/
noncomputable def foliageChaosPos (u θr φr : ℝ) : Vec3 :=
  let r := cbrt u * 15
  let θ := θr * (2 * Real.pi)
  let φ := Real.arccos (2 * φr - 1)
  ⟨r * Real.sin φ * Real.cos θ,
   r * Real.sin φ * Real.sin θ + 7,
   r * Real.cos φ⟩

/-- Foliage target position (TreeParticles, index `i`, draw `yr`):
`y = random() * treeHeight`, `levelRadius = (1 - y/h) * treeRadius`,
`spiralAngle = i * 2.39996` (golden angle). -/
noncomputable def foliageTargetPos (i : ℕ) (yr : ℝ) : Vec3 :=
  let y := yr * treeHeight
  let levelRadius := (1 - y / treeHeight) * treeRadius
  let spiralAngle := (i : ℝ) * 2.39996
  ⟨levelRadius * Real.cos spiralAngle, y, levelRadius * Real.sin spiralAngle⟩

/-- The three ornament archetype labels of `usePhysicsOrnaments`. -/
inductive OrnType where
  | inner
  | outer
  | scatter
deriving DecidableEq, Repr

/-- Ornament chaos position (usePhysicsOrnaments, draws `u θr φr`):
`r = cbrt(random()) * 18 + 5`, spherical angles as for the foliage,
no vertical offset. -/
noncomputable def ornamentChaosPos (u θr φr : ℝ) : Vec3 :=
  let r := cbrt u * 18 + 5
  let θ := θr * (2 * Real.pi)
  let φ := Real.arccos (2 * φr - 1)
  ⟨r * Real.sin φ * Real.cos θ,
   r * Real.sin φ * Real.sin θ,
   r * Real.cos φ⟩

/-- The per-type radial factor applied to the cone radius in
`usePhysicsOrnaments`: `inner` multiplies by `0.5 + random()*0.3`, `outer`
by `0.9 + random()*0.2`, `scatter` leaves it unchanged. -/
noncomputable def ornamentRadialFactor (t : OrnType) (fr : ℝ) : ℝ :=
  match t with
  | .inner => 0.5 + fr * 0.3
  | .outer => 0.9 + fr * 0.2
  | .scatter => 1

/-- Ornament target position (usePhysicsOrnaments, draws `yr fr ar`):
`y = random() * h * 0.9`, `levelRadius = (1 - y/h) * treeRadius` scaled by
the per-type factor, `angle = random()*2π`. -/
noncomputable def ornamentTargetPos (t : OrnType) (yr fr ar : ℝ) : Vec3 :=
  let y := yr * treeHeight * 0.9
  let levelRadius := (1 - y / treeHeight) * treeRadius * ornamentRadialFactor t fr
  let angle := ar * (2 * Real.pi)
  ⟨levelRadius * Real.cos angle, y, levelRadius * Real.sin angle⟩

/-! ## Camera-relative featured-photo placement (PhotoItem `useFrame`) -/

/-- A three.js quaternion (`x y z w` components). -/
structure Quat where
  x : ℝ
  y : ℝ
  z : ℝ
  w : ℝ

/-- Rotation `Vector3.applyQuaternion`, transliterated from three.js:
`t = 2 * cross(q.xyz, v); v + q.w * t + cross(q.xyz, t)`. -/
noncomputable def applyQuaternion (v : Vec3) (q : Quat) : Vec3 :=
  let tx := 2 * (q.y * v.z - q.z * v.y)
  let ty := 2 * (q.z * v.x - q.x * v.z)
  let tz := 2 * (q.x * v.y - q.y * v.x)
  ⟨v.x + q.w * tx + q.y * tz - q.z * ty,
   v.y + q.w * ty + q.z * tx - q.x * tz,
   v.z + q.w * tz + q.x * ty - q.y * tx⟩

/-- The live camera transform read inside `useFrame`. -/
structure CameraState where
  position : Vec3
  quaternion : Quat

/-- Camera forward direction: `forward.set(0,0,-1).applyQuaternion(camera.quaternion)`. -/
noncomputable def cameraForward (cam : CameraState) : Vec3 :=
  applyQuaternion ⟨0, 0, -1⟩ cam.quaternion

/-- The featured-photo target in the CHAOS branch of `PhotoItem`:
`targetPos = camera.position + forward * 5`, then `targetPos.y += 5` to
compensate the parent group's `[0,-5,0]` offset; the target quaternion is a
copy of `camera.quaternion`; the target scale is `1.5`. -/
noncomputable def featuredPhotoTarget (cam : CameraState) : Vec3 × Quat × ℝ :=
  let fwd := cameraForward cam
  let tp := cam.position.add (fwd.scale 5)
  (⟨tp.x, tp.y + 5, tp.z⟩, cam.quaternion, 1.5)

/-- Offset of `<group position={[0, -5, 0]}>` in Experience.tsx: converting a local
position under that group into world space adds `(0,-5,0)`. -/
noncomputable def experienceGroupOffset : Vec3 := ⟨0, -5, 0⟩

/-- The per-photo `DualPosition` record (src/types.ts). -/
structure PhotoData where
  chaos : Vec3
  target : Vec3
  rotationChaos : Vec3
  rotationTarget : Vec3

/-- three.js `Quaternion.setFromEuler` in the default XYZ order. -/
noncomputable def quatFromEuler (e : Vec3) : Quat :=
  let c1 := Real.cos (e.x / 2)
  let c2 := Real.cos (e.y / 2)
  let c3 := Real.cos (e.z / 2)
  let s1 := Real.sin (e.x / 2)
  let s2 := Real.sin (e.y / 2)
  let s3 := Real.sin (e.z / 2)
  ⟨s1 * c2 * c3 + c1 * s2 * s3,
   c1 * s2 * c3 - s1 * c2 * s3,
   c1 * c2 * s3 + s1 * s2 * c3,
   c1 * c2 * c3 - s1 * s2 * s3⟩

/-- The target transform computed by the `PhotoItem` `useFrame` body before
the lerp/slerp: the FORMED branch, the CHAOS featured branch, and the CHAOS
background branch (with its slow elapsed-time tumble). -/
noncomputable def photoItemTarget (formed featured : Bool) (time : ℝ)
    (cam : CameraState) (data : PhotoData) : Vec3 × Quat × ℝ :=
  if formed then
    (data.target, quatFromEuler data.rotationTarget, 1.2)
  else if featured then
    featuredPhotoTarget cam
  else
    (data.chaos,
     quatFromEuler ⟨data.rotationChaos.x + time * 0.05,
                    data.rotationChaos.y + time * 0.05,
                    data.rotationChaos.z⟩,
     0.8)

/-! ## Photo subsystem (Photos component and App handlers) -/

/-- Constant `const totalCount = 12` in the Photos component. -/
def photosTotalCount : ℕ := 12

/-- Roll `Math.floor(Math.random() * totalCount)`: the featured-index roll from a
draw `r ∈ [0,1)`. -/
def featuredRoll (r : ℚ) : ℤ := ⌊r * (photosTotalCount : ℚ)⌋

/-- The `useEffect([isFormed])` body of Photos: on a transition with the new
mode CHAOS the featured index is re-rolled from a fresh draw; otherwise the
previous value is kept. -/
def featuredIndexUpdate (formed : Bool) (prev : ℤ) (r : ℚ) : ℤ :=
  if formed then prev else featuredRoll r

/-- Helper `getUrl` of Photos:
`userPhotos.length === 0 ? "" : userPhotos[(index + photoOffset) % userPhotos.length]`. -/
def getUrl (userPhotos : List String) (photoOffset : ℕ) (index : ℕ) : String :=
  if userPhotos.length = 0 then ""
  else userPhotos.getD ((index + photoOffset) % userPhotos.length) ""

/-- The Photos component's render decision: the guard
`if (!userPhotos || userPhotos.length === 0) return null;` followed by the
twelve `PhotoItem`s with their urls.  `none` is the TS `null`/`undefined`. -/
def photosRender (userPhotos : Option (List String)) (photoOffset : ℕ) :
    Option (List String) :=
  match userPhotos with
  | none => none
  | some ps =>
      if ps.length = 0 then none
      else some ((List.range photosTotalCount).map (getUrl ps photoOffset))

/-- Handler `handleNextPhoto` of App: guard on an empty list, then
`(prev + 1) % userPhotos.length` (JS `%` is the truncating remainder `tmod`). -/
def handleNextPhoto (len : ℤ) (prev : ℤ) : ℤ :=
  if len = 0 then prev else (prev + 1).tmod len

/-- Handler `handlePrevPhoto` of App: guard on an empty list, then
`(prev - 1 + userPhotos.length) % userPhotos.length`. -/
def handlePrevPhoto (len : ℤ) (prev : ℤ) : ℤ :=
  if len = 0 then prev else (prev - 1 + len).tmod len

/-- A file chosen in the upload dialog: its MIME `type` and the object URL
that `URL.createObjectURL` would mint for it. -/
structure UploadFile where
  type : String
  url : String

/-- JS `String.prototype.startsWith`: the pattern is a leading substring of
the receiver's character sequence. -/
def jsStartsWith (s pat : String) : Bool :=
  pat.data.isPrefixOf s.data

/-- The filter applied in `handlePhotoUpload`:
`file.type && file.type.startsWith('image/')` (an empty `type` is falsy). -/
def isImageFile (f : UploadFile) : Bool :=
  !(f.type.data.isEmpty) && jsStartsWith f.type "image/"

/-- The photo-related App state: `userPhotos` and `photoOffset`. -/
structure PhotoState where
  userPhotos : List String
  photoOffset : ℤ
deriving DecidableEq, Repr

/-- Handler `handlePhotoUpload` of App, restricted to the state it updates: with a
non-empty selection, keep the object URLs of the image-typed files; only when
at least one survives are `userPhotos` replaced and `photoOffset` reset. -/
def handlePhotoUpload (files : List UploadFile) (s : PhotoState) : PhotoState :=
  if files.length > 0 then
    let newPhotos := (files.filter isImageFile).map (fun f => f.url)
    if newPhotos.length > 0 then ⟨newPhotos, 0⟩ else s
  else s

/-- List `DEFAULT_PHOTOS`: the six curated Picsum seeds. -/
def DEFAULT_PHOTOS : List String :=
  ["https://picsum.photos/seed/luxury1/800/800",
   "https://picsum.photos/seed/xmas2/800/800",
   "https://picsum.photos/seed/winter3/800/800",
   "https://picsum.photos/seed/gold4/800/800",
   "https://picsum.photos/seed/snow5/800/800",
   "https://picsum.photos/seed/star6/800/800"]

/-- The initial App photo state: `useState(DEFAULT_PHOTOS)`, `useState(0)`. -/
def initialPhotoState : PhotoState := ⟨DEFAULT_PHOTOS, 0⟩

/-! # Theorems -/

/-- C2: the device-side easing `easeOutCubic(x) = 1 - (1-x)^3` satisfies
`ease 0 = 0`, `ease 1 = 1`, and is strictly increasing on `[0,1]`. -/
theorem easeOutCubic_endpoints_strictMonoOn :
    easeOutCubic 0 = 0 ∧ easeOutCubic 1 = 1 ∧
    ∀ x y : ℚ, 0 ≤ x → x < y → y ≤ 1 → easeOutCubic x < easeOutCubic y := by
  refine ⟨by norm_num [easeOutCubic], by norm_num [easeOutCubic], fun x y hx hxy hy => ?_⟩
  have h1 : (1 - y) < (1 - x) := by linarith
  have h2 : (0 : ℚ) ≤ 1 - y := by linarith
  have h3 := pow_lt_pow_left₀ h1 h2 (three_ne_zero)
  simp only [easeOutCubic]
  linarith

/-- C2 witness: the strict-monotonicity clause at `x = 1/4`, `y = 3/4`. -/
theorem easeOutCubic_endpoints_strictMonoOn_witness :
    easeOutCubic (1/4) < easeOutCubic (3/4) :=
  easeOutCubic_endpoints_strictMonoOn.2.2 (1/4) (3/4) (by norm_num) (by norm_num) (by norm_num)

/-- C4: toggling the scene mode twice is the identity, hence the destination
`isFormed ? targetPos : chaosPos` selected for every entity after a
FORMED→CHAOS→FORMED double toggle equals the pre-toggle destination. -/
theorem toggleState_double_identity :
    ∀ m : TreeState, toggleState (toggleState m) = m ∧
      ∀ item : OrnamentItem,
        destOf (isFormed (toggleState (toggleState m))) item = destOf (isFormed m) item := by
  intro m
  cases m <;> exact ⟨rfl, fun _ => rfl⟩

/-- C5: `handleNextPhoto` (`(prev+1) % n`) followed by `handlePrevPhoto`
(`(prev-1+n) % n`) restores any offset in `[0,n)`, for any list length
`n ≥ 1`. -/
theorem nextPhoto_prevPhoto_roundtrip (n p : ℤ) (hn : 1 ≤ n) (h0 : 0 ≤ p)
    (hpn : p < n) : handlePrevPhoto n (handleNextPhoto n p) = p := by
  have hne : n ≠ 0 := by omega
  have hn0 : (0:ℤ) ≤ n := by omega
  simp only [handleNextPhoto, handlePrevPhoto, if_neg hne]
  rw [Int.tmod_eq_emod (show (0:ℤ) ≤ p + 1 by omega) hn0]
  have hq0 : 0 ≤ (p + 1) % n := Int.emod_nonneg _ hne
  rw [Int.tmod_eq_emod (show (0:ℤ) ≤ (p + 1) % n - 1 + n by omega) hn0]
  have h1 : (p + 1) % n - 1 + n = (p + 1) % n + (n - 1) := by ring
  rw [h1, Int.emod_add_emod]
  have h2 : p + 1 + (n - 1) = p + n * 1 := by ring
  rw [h2, Int.add_mul_emod_self_left]
  exact Int.emod_eq_of_lt h0 hpn

/-- C5 witness: length 3, offset 2. -/
theorem nextPhoto_prevPhoto_roundtrip_witness :
    handlePrevPhoto 3 (handleNextPhoto 3 2) = 2 :=
  nextPhoto_prevPhoto_roundtrip 3 2 (by decide) (by decide) (by decide)

/-- C6: on every transition to CHAOS the featured index is re-rolled as
`floor(random * 12)` regardless of the previous value (never cached), and
the rolled index is an integer in `[0, totalCount)` for any draw in
`[0,1)`. -/
theorem featuredIndex_reroll_in_range (r : ℚ) (h0 : 0 ≤ r) (h1 : r < 1) :
    (∀ prev : ℤ, featuredIndexUpdate false prev r = featuredRoll r) ∧
    0 ≤ featuredRoll r ∧ featuredRoll r < (photosTotalCount : ℤ) := by
  refine ⟨fun prev => rfl, Int.floor_nonneg.mpr (by positivity), ?_⟩
  have h12 : r * (photosTotalCount : ℚ) < 12 := by
    simp only [photosTotalCount]
    push_cast
    nlinarith
  exact Int.floor_lt.mpr (by push_cast; simpa [photosTotalCount] using h12)

/-- C6 witness: the draw `1/2`, arbitrary previous index 7. -/
theorem featuredIndex_reroll_in_range_witness :
    featuredIndexUpdate false 7 (1/2) = featuredRoll (1/2) ∧
    0 ≤ featuredRoll (1/2) ∧ featuredRoll (1/2) < (photosTotalCount : ℤ) := by
  have h := featuredIndex_reroll_in_range (1/2) (by norm_num) (by norm_num)
  exact ⟨h.1 7, h.2.1, h.2.2⟩

/-- C9: with a missing (`none`) or empty photo list the Photos component
renders nothing (`null`), and the render function is total. -/
theorem photosRender_empty_none (ps : Option (List String)) (off : ℕ)
    (h : ps = none ∨ ps = some []) : photosRender ps off = none := by
  rcases h with h | h <;> subst h <;> rfl

/-- C9 witness: the missing-list case. -/
theorem photosRender_empty_none_witness : photosRender none 0 = none :=
  photosRender_empty_none none 0 (Or.inl rfl)

/-- C1 counterexample: from progress `0 ∈ [0,1]` a single FORMED frame with
`delta = 1 ≥ 0` produces `3/2 ∉ [0,1]`, and the following FORMED frame
strictly decreases the progress, so neither the clamp nor the FORMED
monotonicity of the claim holds for arbitrary `delta ≥ 0`. -/
theorem progressStep_overshoots_cex :
    progressStep true 0 1 = 3/2 ∧ ¬ progressStep true 0 1 ≤ 1 ∧
    progressStep true (progressStep true 0 1) 1 < progressStep true 0 1 := by
  norm_num [progressStep, lerp]

/-- One frame of the progress smoothing keeps `[0,1]` and moves toward the
mode's pole, provided the lerp parameter `delta * 1.5` stays in `[0,1]`. -/
lemma progressStep_frame_bounds (formed : Bool) (p d : ℚ) (hp0 : 0 ≤ p)
    (hp1 : p ≤ 1) (hd0 : 0 ≤ d) (hd1 : d * (3/2) ≤ 1) :
    0 ≤ progressStep formed p d ∧ progressStep formed p d ≤ 1 ∧
    (formed = true → p ≤ progressStep formed p d) ∧
    (formed = false → progressStep formed p d ≤ p) := by
  cases formed
  · have he : progressStep false p d = (1 - d * (3/2)) * p := by
      simp [progressStep, lerp]
    refine ⟨?_, ?_, fun h => absurd h (by simp), fun _ => ?_⟩ <;> rw [he] <;> nlinarith
  · have he : progressStep true p d = (1 - d * (3/2)) * p + d * (3/2) := by
      simp [progressStep, lerp]
    refine ⟨?_, ?_, fun _ => ?_, fun h => absurd h (by simp)⟩ <;> rw [he] <;> nlinarith

/-- C1 (amended): over any frame sequence whose deltas satisfy
`0 ≤ delta` and `delta * 1.5 ≤ 1`, the host-side progress scalar stays in
`[0,1]`, is non-decreasing while the mode is FORMED and non-increasing while
the mode is CHAOS. -/
theorem progressRun_monotone_clamped (formed : Bool) (p : ℚ) (ds : List ℚ)
    (hp0 : 0 ≤ p) (hp1 : p ≤ 1)
    (hds : ∀ d ∈ ds, 0 ≤ d ∧ d * (3/2) ≤ 1) :
    (0 ≤ progressRun formed p ds ∧ progressRun formed p ds ≤ 1) ∧
    (formed = true → p ≤ progressRun formed p ds) ∧
    (formed = false → progressRun formed p ds ≤ p) := by
  induction ds generalizing p with
  | nil => exact ⟨⟨hp0, hp1⟩, fun _ => le_refl p, fun _ => le_refl p⟩
  | cons d tl ih =>
    have hd := hds d (List.mem_cons_self d tl)
    have hstep := progressStep_frame_bounds formed p d hp0 hp1 hd.1 hd.2
    have hrun : progressRun formed p (d :: tl)
        = progressRun formed (progressStep formed p d) tl := rfl
    have hih := ih (progressStep formed p d) hstep.1 hstep.2.1
      (fun e he => hds e (List.mem_cons_of_mem d he))
    refine ⟨?_, fun hf => ?_, fun hf => ?_⟩
    · rw [hrun]; exact hih.1
    · rw [hrun]; exact le_trans (hstep.2.2.1 hf) (hih.2.1 hf)
    · rw [hrun]; exact le_trans (hih.2.2 hf) (hstep.2.2.2 hf)

/-- C1 witness: a two-frame FORMED run from `1/2` with in-range deltas. -/
theorem progressRun_monotone_clamped_witness :
    (0 ≤ progressRun true (1/2) [1/2, 1/3] ∧ progressRun true (1/2) [1/2, 1/3] ≤ 1) ∧
    (true = true → 1/2 ≤ progressRun true (1/2) [1/2, 1/3]) ∧
    (true = false → progressRun true (1/2) [1/2, 1/3] ≤ 1/2) :=
  progressRun_monotone_clamped true (1/2) [1/2, 1/3] (by norm_num) (by norm_num)
    (by intro d hd; simp only [List.mem_cons, List.not_mem_nil, or_false] at hd
        rcases hd with h | h <;> subst h <;> norm_num)

/-- C3: `updatePhysics` is exactly the ordered composition of the spring
pull, the CHAOS-only noise, the damping multiplication, and the position
integration with time step `min delta 0.1`; the noise step is the identity
in FORMED mode, the clamped step never exceeds `0.1`, and every archetype's
damping constant is `< 1`. -/
theorem updatePhysics_step_structure (formed : Bool)
    (time delta stiffness damping ns : ℝ) (item : OrnamentItem) :
    updatePhysics formed time delta stiffness damping ns item
      = integrateStep delta (dampingStep damping
          (chaosNoiseStep formed time ns (springPullStep formed stiffness item))) ∧
    chaosNoiseStep true time ns item = item ∧
    min delta (0.1:ℝ) ≤ 0.1 ∧
    ballParams.damping < 1 ∧ boxParams.damping < 1 ∧ diamondParams.damping < 1 ∧
    ringParams.damping < 1 ∧ icicleParams.damping < 1 := by
  refine ⟨by cases formed <;> rfl, rfl, min_le_right _ _, ?_, ?_, ?_, ?_, ?_⟩ <;>
    norm_num [ballParams, boxParams, diamondParams, ringParams, icicleParams]

/-- C10: an upload whose selection contains no image-typed file leaves both
`userPhotos` and `photoOffset` unchanged, and from a non-empty `userPhotos`
state no upload whatsoever can make `userPhotos` empty. -/
theorem handlePhotoUpload_noimage_unchanged (files : List UploadFile)
    (s : PhotoState) (hni : ∀ f ∈ files, jsStartsWith f.type "image/" = false) :
    handlePhotoUpload files s = s ∧
    (s.userPhotos ≠ [] → ∀ anyFiles : List UploadFile,
      (handlePhotoUpload anyFiles s).userPhotos ≠ []) := by
  constructor
  · unfold handlePhotoUpload
    by_cases hf : files.length > 0
    · have hfilter : files.filter isImageFile = [] := by
        rw [List.filter_eq_nil_iff]
        intro a ha
        simp [isImageFile, hni a ha]
      simp [if_pos hf, hfilter]
    · simp [if_neg hf]
  · intro hne anyFiles
    unfold handlePhotoUpload
    by_cases hf : anyFiles.length > 0
    · by_cases hnp : ((anyFiles.filter isImageFile).map (fun f => f.url)).length > 0
      · simp only [if_pos hf, if_pos hnp]
        exact List.ne_nil_of_length_pos hnp
      · simp only [if_pos hf, if_neg hnp]
        exact hne
    · simp only [if_neg hf]
      exact hne

/-- C10 witness: a single `text/plain` file against the default state. -/
theorem handlePhotoUpload_noimage_unchanged_witness :
    handlePhotoUpload [⟨"text/plain", "blob:a"⟩] initialPhotoState = initialPhotoState ∧
    (initialPhotoState.userPhotos ≠ [] → ∀ anyFiles : List UploadFile,
      (handlePhotoUpload anyFiles initialPhotoState).userPhotos ≠ []) :=
  handlePhotoUpload_noimage_unchanged [⟨"text/plain", "blob:a"⟩] initialPhotoState
    (by intro f hf; simp only [List.mem_singleton] at hf; subst hf; decide)

/-- C8: on any CHAOS frame where a photo is featured, the target computed by
`PhotoItem` is `featuredPhotoTarget` of the live camera: its orientation is
exactly the camera quaternion, its scale is `1.5`, and its local position
compensates the parent group's `[0,-5,0]` offset so that its world position
is exactly `camera.position + cameraForward * 5`.  The target is a function
of the current camera state alone, hence recomputed from the live transform
on every frame rather than cached. -/
theorem photoItemTarget_featured_cameraRelative (time : ℝ) (cam : CameraState)
    (data : PhotoData) :
    photoItemTarget false true time cam data = featuredPhotoTarget cam ∧
    (featuredPhotoTarget cam).2.1 = cam.quaternion ∧
    (featuredPhotoTarget cam).2.2 = 1.5 ∧
    ((featuredPhotoTarget cam).1).add experienceGroupOffset
      = cam.position.add ((cameraForward cam).scale 5) := by
  refine ⟨rfl, rfl, rfl, ?_⟩
  simp only [featuredPhotoTarget, experienceGroupOffset, Vec3.add, Vec3.scale,
    Vec3.mk.injEq]
  exact ⟨by ring, by ring, by ring⟩

/-- A point at spherical angles `θ φ` and radius `r` has squared norm `r^2`. -/
lemma spherePoint_normSq (r θ φ : ℝ) :
    (r * Real.sin φ * Real.cos θ) ^ 2 + (r * Real.sin φ * Real.sin θ) ^ 2
      + (r * Real.cos φ) ^ 2 = r ^ 2 := by
  have h1 := Real.sin_sq_add_cos_sq θ
  have h2 := Real.sin_sq_add_cos_sq φ
  linear_combination (r ^ 2 * Real.sin φ ^ 2) * h1 + r ^ 2 * h2

/-- A point on a circle of radius `ρ` has squared horizontal norm `ρ^2`. -/
lemma circlePoint_sq (ρ a : ℝ) :
    (ρ * Real.cos a) ^ 2 + (ρ * Real.sin a) ^ 2 = ρ ^ 2 := by
  have h := Real.sin_sq_add_cos_sq a
  linear_combination ρ ^ 2 * h

/-- The cube root of a draw in `[0,1)` stays below 1. -/
lemma cbrt_lt_one {u : ℝ} (h0 : 0 ≤ u) (h1 : u < 1) : cbrt u < 1 :=
  Real.rpow_lt_one h0 h1 (by norm_num)

/-- The cube root of a nonnegative draw is nonnegative. -/
lemma cbrt_nonneg {u : ℝ} (h0 : 0 ≤ u) : 0 ≤ cbrt u :=
  Real.rpow_nonneg h0 _

/-- C7 counterexample: the `outer`-type ornament generated from the draws
`yr = 1/2`, `fr = 0`, `ar = 0` sits at height `y = 6.3` with horizontal
radius `2.475`, while the cone radius `(1 - y/treeHeight) * treeRadius`
there is `2.75`: its target does not lie on the claimed cone. -/
theorem ornamentTargetPos_off_cone_cex :
    ((ornamentTargetPos OrnType.outer (1/2) 0 0).x) ^ 2
      + ((ornamentTargetPos OrnType.outer (1/2) 0 0).z) ^ 2
      ≠ ((1 - (ornamentTargetPos OrnType.outer (1/2) 0 0).y / treeHeight)
          * treeRadius) ^ 2 := by
  simp only [ornamentTargetPos, ornamentRadialFactor, treeHeight, treeRadius,
    zero_mul, Real.cos_zero, Real.sin_zero, mul_zero, mul_one, add_zero]
  norm_num

/-- C7 (amended): chaos positions lie strictly inside their configured
spheres (radius 15 centred at `(0,7,0)` for the foliage, radius 23 at the
origin for ornaments); foliage targets lie exactly on the cone of radius
`(1 - y/treeHeight) * treeRadius` with `y ∈ [0, treeHeight]`; ornament
targets lie on that cone with the radius additionally scaled by the
per-type factor (which stays in `[1/2, 11/10]`) and `y ∈ [0, 0.9*treeHeight]`.
All coordinates are real numbers bounded by these constraints, hence
finite. -/
theorem generation_positions_bounded (i : ℕ) (t : OrnType)
    (u θr φr yr u2 θr2 φr2 yr2 fr ar : ℝ)
    (hu : 0 ≤ u ∧ u < 1) (hyr : 0 ≤ yr ∧ yr < 1)
    (hu2 : 0 ≤ u2 ∧ u2 < 1) (hyr2 : 0 ≤ yr2 ∧ yr2 < 1) (hfr : 0 ≤ fr ∧ fr < 1) :
    ((foliageChaosPos u θr φr).x ^ 2 + ((foliageChaosPos u θr φr).y - 7) ^ 2
        + (foliageChaosPos u θr φr).z ^ 2 < 15 ^ 2) ∧
    ((foliageTargetPos i yr).x ^ 2 + (foliageTargetPos i yr).z ^ 2
        = ((1 - (foliageTargetPos i yr).y / treeHeight) * treeRadius) ^ 2
      ∧ 0 ≤ (foliageTargetPos i yr).y ∧ (foliageTargetPos i yr).y ≤ treeHeight) ∧
    ((ornamentChaosPos u2 θr2 φr2).x ^ 2 + (ornamentChaosPos u2 θr2 φr2).y ^ 2
        + (ornamentChaosPos u2 θr2 φr2).z ^ 2 < 23 ^ 2) ∧
    ((ornamentTargetPos t yr2 fr ar).x ^ 2 + (ornamentTargetPos t yr2 fr ar).z ^ 2
        = ((1 - (ornamentTargetPos t yr2 fr ar).y / treeHeight) * treeRadius
            * ornamentRadialFactor t fr) ^ 2
      ∧ 0 ≤ (ornamentTargetPos t yr2 fr ar).y
      ∧ (ornamentTargetPos t yr2 fr ar).y ≤ 0.9 * treeHeight
      ∧ 1/2 ≤ ornamentRadialFactor t fr ∧ ornamentRadialFactor t fr ≤ 11/10) := by
  refine ⟨?_, ⟨?_, ?_, ?_⟩, ?_, ⟨?_, ?_, ?_, ?_⟩⟩
  · simp only [foliageChaosPos]
    have hr2 : (cbrt u * 15) ^ 2 < 225 := by
      nlinarith [cbrt_lt_one hu.1 hu.2, cbrt_nonneg hu.1]
    nlinarith [spherePoint_normSq (cbrt u * 15) (θr * (2 * Real.pi))
      (Real.arccos (2 * φr - 1)), hr2]
  · simp only [foliageTargetPos]
    exact circlePoint_sq _ _
  · simp only [foliageTargetPos, treeHeight]
    nlinarith [hyr.1]
  · simp only [foliageTargetPos, treeHeight]
    nlinarith [hyr.2]
  · simp only [ornamentChaosPos]
    have hr2 : (cbrt u2 * 18 + 5) ^ 2 < 529 := by
      nlinarith [cbrt_lt_one hu2.1 hu2.2, cbrt_nonneg hu2.1]
    nlinarith [spherePoint_normSq (cbrt u2 * 18 + 5) (θr2 * (2 * Real.pi))
      (Real.arccos (2 * φr2 - 1)), hr2]
  · simp only [ornamentTargetPos]
    exact circlePoint_sq _ _
  · simp only [ornamentTargetPos, treeHeight]
    nlinarith [hyr2.1]
  · simp only [ornamentTargetPos, treeHeight]
    nlinarith [hyr2.2]
  · cases t <;> simp only [ornamentRadialFactor] <;>
      exact ⟨by nlinarith [hfr.1], by nlinarith [hfr.2]⟩

/-- C7 witness: the amended bounds at index 0, type `scatter`, all draws `1/2`. -/
theorem generation_positions_bounded_witness :
    ((foliageChaosPos (1/2) (1/2) (1/2)).x ^ 2
        + ((foliageChaosPos (1/2) (1/2) (1/2)).y - 7) ^ 2
        + (foliageChaosPos (1/2) (1/2) (1/2)).z ^ 2 < 15 ^ 2) ∧
    ((foliageTargetPos 0 (1/2)).x ^ 2 + (foliageTargetPos 0 (1/2)).z ^ 2
        = ((1 - (foliageTargetPos 0 (1/2)).y / treeHeight) * treeRadius) ^ 2
      ∧ 0 ≤ (foliageTargetPos 0 (1/2)).y ∧ (foliageTargetPos 0 (1/2)).y ≤ treeHeight) ∧
    ((ornamentChaosPos (1/2) (1/2) (1/2)).x ^ 2 + (ornamentChaosPos (1/2) (1/2) (1/2)).y ^ 2
        + (ornamentChaosPos (1/2) (1/2) (1/2)).z ^ 2 < 23 ^ 2) ∧
    ((ornamentTargetPos OrnType.scatter (1/2) (1/2) (1/2)).x ^ 2
        + (ornamentTargetPos OrnType.scatter (1/2) (1/2) (1/2)).z ^ 2
        = ((1 - (ornamentTargetPos OrnType.scatter (1/2) (1/2) (1/2)).y / treeHeight)
            * treeRadius * ornamentRadialFactor OrnType.scatter (1/2)) ^ 2
      ∧ 0 ≤ (ornamentTargetPos OrnType.scatter (1/2) (1/2) (1/2)).y
      ∧ (ornamentTargetPos OrnType.scatter (1/2) (1/2) (1/2)).y ≤ 0.9 * treeHeight
      ∧ 1/2 ≤ ornamentRadialFactor OrnType.scatter (1/2)
      ∧ ornamentRadialFactor OrnType.scatter (1/2) ≤ 11/10) :=
  generation_positions_bounded 0 OrnType.scatter (1/2) (1/2) (1/2) (1/2) (1/2)
    (1/2) (1/2) (1/2) (1/2) (1/2)
    ⟨by norm_num, by norm_num⟩ ⟨by norm_num, by norm_num⟩ ⟨by norm_num, by norm_num⟩
    ⟨by norm_num, by norm_num⟩ ⟨by norm_num, by norm_num⟩

end XmasScene
